import Mathlib

/-!
Verification development for the VitaFit prediction backend
(src/backend/main.py, src/backend/utils/helpers.py).

The backend is shallowly embedded:
- Python floats are modelled as exact rationals (ℚ);
- Python dicts that flow through the session store are modelled as
  association lists in insertion order (Python dicts preserve it);
- the opaque model artifacts (sklearn classifiers / regressors) are
  parameters of type `input → Except Exc output`;
- the MongoDB "predictions" collection is a `List StoredRecord`, with
  `find_one` / `update_one(upsert)` modelled positionally;
- Python exceptions and FastAPI HTTPExceptions are the inductive `Exc`;
  HTTP error details are structured constructors instead of the exact
  f-string renderings (string formatting is presentation-only, the
  constructors carry precisely the data interpolated by the source).
-/

namespace VitaFit

/-- Model of Python `str.lower()` (the strings compared by the backend are
ASCII, where `Char.toLower` agrees with Python). -/
def pyLower (s : String) : String :=
  ⟨s.data.map Char.toLower⟩

/-- Model of `key.replace(chr(95), chr(32))` used by the report renderer. -/
def pyReplaceUS (s : String) : String :=
  ⟨s.data.map (fun c => if c = '_' then ' ' else c)⟩

/-- Auxiliary for Python `str.title()`: the boolean tracks whether the
previous character was alphabetic. -/
def pyTitleAux : List Char → Bool → List Char
  | [], _ => []
  | c :: cs, prevAlpha =>
    (if c.isAlpha then (if prevAlpha then c.toLower else c.toUpper) else c)
      :: pyTitleAux cs c.isAlpha

/-- Model of Python `str.title()` on ASCII strings. -/
def pyTitle (s : String) : String :=
  ⟨pyTitleAux s.data false⟩

/-- Python values that flow through the session store. -/
inductive PyVal where
  | str (s : String)
  | int (n : Int)
  | rat (q : ℚ)
  | none
deriving DecidableEq, Repr

/-- Model of Python `str(value)` for table cells in the report. Exact on
strings and integers; the rational rendering stands in for float repr
(presentation only, no claim depends on it). -/
def pyStr : PyVal → String
  | .str s => s
  | .int n => toString n
  | .rat q => toString q
  | .none => "None"

/-- Python truthiness of a stored value. -/
def truthyPV : PyVal → Bool
  | .str s => !s.isEmpty
  | .int n => n != 0
  | .rat q => q != 0
  | .none => false

/-- Structured Python exceptions / FastAPI HTTPException details raised by
the backend. `http code detail` is an HTTPException; details are structured
stand-ins for the f-string messages of the source, carrying exactly the
data those messages interpolate. -/
inductive Exc where
  | keyError (k : String)
  | typeError
  | attributeError
  | valueError
  | modelFailure (msg : String)
  | http (code : Nat) (detail : Exc)
  | modelsNotLoadedExercise
  | modelsNotLoadedDiet
  | genderEncoderMissing
  | genderEncoderNone
  | invalidGenderExercise (g : String) (allowed : List String)
  | invalidGenderDiet (g : String) (allowed : List String)
  | noExercisePredictions (sid : String)
  | noPredictionsFound (sid : String)
  | incompleteData
  | dietEncodersMissing
  | exerciseErrorWrap (e : Exc)
  | dietInternalError (e : Exc)
deriving DecidableEq, Repr

/-- sklearn LabelEncoder artifact: the frozen `classes_` array. -/
structure LabelEncoder where
  classes_ : List String
deriving DecidableEq, Repr

/-- Position of the first occurrence of a value in a class list, counting
from the given start index. -/
def idxOfAux (v : String) : List String → Nat → Option Nat
  | [], _ => Option.none
  | c :: cs, i => if c == v then some i else idxOfAux v cs (i + 1)

/-- sklearn `LabelEncoder.transform` on a single value: position of the
value in `classes_`, ValueError when unseen. -/
def transform (e : LabelEncoder) (v : String) : Except Exc Int :=
  match idxOfAux v e.classes_ 0 with
  | some i => .ok (Int.ofNat i)
  | Option.none => .error .valueError

/-- sklearn `LabelEncoder.inverse_transform` on a single code: index into
`classes_`, ValueError when the code is outside the trained range. -/
def inverseTransform (e : LabelEncoder) (code : Int) : Except Exc String :=
  if 0 ≤ code then
    match e.classes_.get? code.toNat with
    | some s => .ok s
    | Option.none => .error .valueError
  else .error .valueError

/-- Dictionary access `d[k]` on a stored mapping: KeyError when absent. -/
def getKey (l : List (String × PyVal)) (k : String) : Except Exc PyVal :=
  match l.lookup k with
  | some v => .ok v
  | Option.none => .error (.keyError k)

/-- Dictionary access `d.get(k, default)` on a stored mapping. -/
def getDefault (l : List (String × PyVal)) (k : String) (d : PyVal) : PyVal :=
  match l.lookup k with
  | some v => v
  | Option.none => d

/-- Model of Python `int(value)`: identity on ints, truncation toward zero
on floats, parse on strings, TypeError on None. -/
def pyInt : PyVal → Except Exc Int
  | .int n => .ok n
  | .rat q => .ok (if q < 0 then ⌈q⌉ else ⌊q⌋)
  | .str s =>
    match s.toInt? with
    | some n => .ok n
    | Option.none => .error .valueError
  | .none => .error .attributeError

/-- Requires a stored value to be a string before a string method
(`.lower()`) or a string-encoder transform is applied to it;
AttributeError otherwise. -/
def asStr : PyVal → Except Exc String
  | .str s => .ok s
  | _ => .error .attributeError

/-- Model of Python `round(x)`: round-half-to-even to an integer. -/
def pyRound (q : ℚ) : Int :=
  let f : Int := ⌊q⌋
  let r : ℚ := q - (f : ℚ)
  if r < 1/2 then f
  else if 1/2 < r then f + 1
  else if f % 2 = 0 then f else f + 1

/-- Model of Python `round(x, 2)`: round-half-to-even at two decimals. -/
def pyRound2 (q : ℚ) : ℚ :=
  ((pyRound (q * 100) : Int) : ℚ) / 100

/-- Source: `infer_activity_level` (backend/main.py lines 182-194 and
backend/utils/helpers.py lines 22-34; the two copies are identical). -/
def infer_activity_level (freq : Int) (intensity : String) : String :=
  if 5 ≤ freq ∧ pyLower intensity = "high" then "very active"
  else if 3 ≤ freq ∧ pyLower intensity ∈ (["medium", "high"] : List String) then "moderate"
  else if freq ≤ 2 then "light"
  else "sedentary"

/-- Modelled from the claim and spec section 4.3: the 4-branch priority
table for activity-level inference, written from the words of the
specification, to be compared with `infer_activity_level`. -/
def spec_activity_table (freq : Int) (intensity : String) : String :=
  if 5 ≤ freq ∧ pyLower intensity = "high" then "very active"
  else if 3 ≤ freq ∧ (pyLower intensity = "medium" ∨ pyLower intensity = "high") then "moderate"
  else if freq ≤ 2 then "light"
  else "sedentary"

/-- Source: height conversion block of `preprocess_user_data_for_exercise`
(backend/main.py lines 202-206). -/
def heightToInches (v : ℚ) (u : String) : ℚ :=
  if pyLower u = "cm" then v * (393701 / 1000000 : ℚ)
  else if pyLower u = "feet" then v * 12
  else v

/-- Source: weight conversion block of `preprocess_user_data_for_exercise`
(backend/main.py lines 208-210). -/
def weightToKg (v : ℚ) (u : String) : ℚ :=
  if pyLower u = "lbs" then v * (453592 / 1000000 : ℚ)
  else v

/-- Source: BMI computation of `preprocess_user_data_for_exercise`
(backend/main.py lines 212-213), taking height in inches. -/
def bmiFromInches (weight_in_kg : ℚ) (height_in_inches : ℚ) : ℚ :=
  let height_in_meters := height_in_inches * (254 / 10000 : ℚ)
  if 0 < height_in_meters then weight_in_kg / height_in_meters ^ 2 else 0

/-- Request body of POST /predict_exercise (pydantic `UserInput`). Schema
constraints (positivity ranges, the gender / unit literals) live in the
request-validation layer; the handler itself is modelled on the plain
field values. -/
structure UserInput where
  session_id : String
  age : Int
  gender : String
  height_value : ℚ
  height_unit : String
  weight_value : ℚ
  weight_unit : String
  calories_intake : Int
deriving DecidableEq, Repr

/-- Model of `user_input.dict()` in the field-declaration order of
`UserInput`. -/
def userDict (u : UserInput) : List (String × PyVal) :=
  [("session_id", .str u.session_id),
   ("age", .int u.age),
   ("gender", .str u.gender),
   ("height_value", .rat u.height_value),
   ("height_unit", .str u.height_unit),
   ("weight_value", .rat u.weight_value),
   ("weight_unit", .str u.weight_unit),
   ("calories_intake", .int u.calories_intake)]

/-- One row of the exercise-model feature frame, in
EXERCISE_FEATURE_COLUMNS_ORDER. -/
structure ExerciseRow where
  age : Int
  gender : Int
  height : ℚ
  weight : ℚ
  bmi : ℚ
  calories_intake : Int
deriving DecidableEq, Repr

/-- Source: `preprocess_user_data_for_exercise` (backend/main.py lines
196-238). Returns the model feature row and the processed core features
dict. -/
def preprocess_user_data_for_exercise (data : UserInput)
    (encoders : Option (List (String × Option LabelEncoder))) :
    Except Exc (ExerciseRow × List (String × PyVal)) :=
  let height_in_inches := heightToInches data.height_value data.height_unit
  let weight_in_kg := weightToKg data.weight_value data.weight_unit
  let bmi := bmiFromInches weight_in_kg height_in_inches
  match encoders with
  | Option.none => .error (.http 500 .genderEncoderMissing)
  | some encs =>
    match encs.lookup "gender" with
    | Option.none => .error (.http 500 .genderEncoderMissing)
    | some Option.none => .error (.http 500 .genderEncoderNone)
    | some (some gender_le) =>
      match transform gender_le (pyLower data.gender) with
      | .error _ => .error (.http 400 (.invalidGenderExercise data.gender gender_le.classes_))
      | .ok encoded_gender =>
        .ok (⟨data.age, encoded_gender, height_in_inches, weight_in_kg, bmi, data.calories_intake⟩,
             [("age", .int data.age),
              ("gender", .int encoded_gender),
              ("height", .rat height_in_inches),
              ("weight", .rat weight_in_kg),
              ("bmi", .rat bmi),
              ("calories_intake", .int data.calories_intake)])

/-- Access `encoders[k]` followed by a method call on the result:
KeyError when the key is absent, AttributeError when the stored encoder is
None. -/
def getEncoder (encs : List (String × Option LabelEncoder)) (k : String) :
    Except Exc LabelEncoder :=
  match encs.lookup k with
  | Option.none => .error (.keyError k)
  | some Option.none => .error .attributeError
  | some (some e) => .ok e

/-- Source: body of the try block of `predict_exercise_plan`
(backend/main.py lines 257-275): classifier and regressor predictions,
inverse transforms of the two categorical outputs, rounding of the three
regression outputs, assembly of the exercise_predictions dict. -/
def exerciseComputeRaw (clf : ExerciseRow → Except Exc (Int × Int))
    (reg : ExerciseRow → Except Exc (ℚ × ℚ × ℚ))
    (encs : List (String × Option LabelEncoder))
    (row : ExerciseRow) : Except Exc (List (String × PyVal)) :=
  match clf row with
  | .error e => .error e
  | .ok y_class_pred =>
    match reg row with
    | .error e => .error e
    | .ok y_reg_pred =>
      match getEncoder encs "exercise_type" with
      | .error e => .error e
      | .ok etEnc =>
        match inverseTransform etEnc y_class_pred.1 with
        | .error e => .error e
        | .ok predicted_exercise_type =>
          match getEncoder encs "intensity_level" with
          | .error e => .error e
          | .ok ilEnc =>
            match inverseTransform ilEnc y_class_pred.2 with
            | .error e => .error e
            | .ok predicted_intensity_level =>
              .ok [("exercise_type", .str predicted_exercise_type),
                   ("intensity_level", .str predicted_intensity_level),
                   ("frequency_per_week", .int (pyRound y_reg_pred.1)),
                   ("duration_minutes", .rat (pyRound2 y_reg_pred.2.1)),
                   ("estimated_calorie_burn", .rat (pyRound2 y_reg_pred.2.2))]

/-- Source: the try/except around the exercise prediction step
(backend/main.py lines 256-277): any exception is wrapped into an
HTTP 500 carrying the underlying message. -/
def exerciseCompute (clf : ExerciseRow → Except Exc (Int × Int))
    (reg : ExerciseRow → Except Exc (ℚ × ℚ × ℚ))
    (encs : List (String × Option LabelEncoder))
    (row : ExerciseRow) : Except Exc (List (String × PyVal)) :=
  match exerciseComputeRaw clf reg encs row with
  | .ok v => .ok v
  | .error e => .error (.http 500 (.exerciseErrorWrap e))

/-- One document of the "predictions" collection (backend/main.py lines
282-289 for the fields written by predict_exercise; `last_updated` is only
ever added by predict_diet, line 408). -/
structure StoredRecord where
  session_id : String
  timestamp : Nat
  raw_user_input : List (String × PyVal)
  processed_features : List (String × PyVal)
  exercise_predictions : List (String × PyVal)
  diet_predictions : List (String × PyVal)
  last_updated : Option Nat
deriving DecidableEq, Repr

/-- Model of `db.predictions.find_one(filter-by-session_id)`: the first
record of the collection whose session_id matches. -/
def findOne (store : List StoredRecord) (sid : String) : Option StoredRecord :=
  store.find? (fun r => r.session_id == sid)

/-- Updates the first record matching the session id with the document
written by predict_exercise; its `$set` names every field except
`last_updated`, so that field of the old document survives. -/
def updateFirstSet : List StoredRecord → String → StoredRecord → List StoredRecord
  | [], _, _ => []
  | x :: xs, sid, r =>
    if x.session_id == sid then { r with last_updated := x.last_updated } :: xs
    else x :: updateFirstSet xs sid r

/-- Model of `db.predictions.update_one(filter, set-document, upsert=True)`
as issued by predict_exercise (backend/main.py lines 290-294). -/
def upsertRecord (store : List StoredRecord) (sid : String) (r : StoredRecord) :
    List StoredRecord :=
  if store.any (fun x => x.session_id == sid) then updateFirstSet store sid r
  else store ++ [r]

/-- Source: the `prediction_record` document built by predict_exercise
(backend/main.py lines 282-289); `convert_numpy_types` is the identity on
the already-native values of this model. -/
def buildPredictionRecord (u : UserInput) (now : Nat)
    (pcf ep : List (String × PyVal)) : StoredRecord :=
  { session_id := u.session_id
    timestamp := now
    raw_user_input := userDict u
    processed_features := pcf
    exercise_predictions := ep
    diet_predictions := []
    last_updated := Option.none }

/-- Process-wide exercise-model globals loaded at startup. -/
structure ExerciseConfig where
  multi_clf : Option (ExerciseRow → Except Exc (Int × Int))
  multi_reg : Option (ExerciseRow → Except Exc (ℚ × ℚ × ℚ))
  label_encoders : Option (List (String × Option LabelEncoder))

/-- Python truthiness of `all([multi_clf, multi_reg, label_encoders])`
(an empty encoders dict is falsy). -/
def exerciseCfgLoaded (c : ExerciseConfig) : Bool :=
  c.multi_clf.isSome && c.multi_reg.isSome &&
    (match c.label_encoders with
     | some l => !l.isEmpty
     | Option.none => false)

/-- Response body of POST /predict_exercise. -/
structure ExerciseResponse where
  session_id : String
  exercise_plan : List (String × PyVal)
  message : String
deriving DecidableEq, Repr

/-- Source: `predict_exercise_plan` (backend/main.py lines 246-307).
The MongoDB write is modelled as always succeeding (in the source a store
failure is swallowed by a try/except that only logs). The returned pair is
the updated collection and the HTTP response. -/
def predict_exercise_plan (cfg : ExerciseConfig) (store : List StoredRecord)
    (user_input : UserInput) (now : Nat) :
    Except Exc (List StoredRecord × ExerciseResponse) :=
  match cfg.multi_clf, cfg.multi_reg, cfg.label_encoders with
  | some clf, some reg, some encs =>
    if encs.isEmpty then .error (.http 500 .modelsNotLoadedExercise)
    else
      match preprocess_user_data_for_exercise user_input (some encs) with
      | .error e => .error e
      | .ok (row, processed_core_features) =>
        match exerciseCompute clf reg encs row with
        | .error e => .error e
        | .ok exercise_predictions =>
          let newRec := buildPredictionRecord user_input now processed_core_features exercise_predictions
          .ok (upsertRecord store user_input.session_id newRec,
               ⟨user_input.session_id, exercise_predictions,
                "Exercise plan generated. You can now generate a diet plan with more details if desired."⟩)
  | _, _, _ => .error (.http 500 .modelsNotLoadedExercise)

/-- Source: gender resolution for the diet model (backend/main.py lines
345-357, after `diet_gender_raw` has already been lowercased by the
caller). When a diet-specific gender encoder is present it re-encodes the
raw stored string, converting an unseen value into an HTTP 400; otherwise
it falls back to the exercise-encoded value stored in
processed_features (KeyError when that key is absent). The three source
conditions (encoder dict not None, key present, value not None) collapse
to the single lookup on the assoc-list model. -/
def resolveDietGender (encs : List (String × Option LabelEncoder))
    (diet_gender_raw : String) (pcf : List (String × PyVal)) : Except Exc PyVal :=
  match encs.lookup "gender" with
  | some (some genderEnc) =>
    match transform genderEnc diet_gender_raw with
    | .ok code => .ok (.int code)
    | .error _ => .error (.http 400 (.invalidGenderDiet diet_gender_raw genderEnc.classes_))
  | _ => getKey pcf "gender"

/-- One row of the diet-model feature frame, in DIET_FEATURE_COLUMNS_ORDER
(backend/main.py lines 61-64 and 370-381). -/
structure DietModelInput where
  age : PyVal
  gender : PyVal
  height : PyVal
  weight : PyVal
  bmi : PyVal
  calories_intake : PyVal
  exercise_type : PyVal
  intensity_level : PyVal
  frequency_per_week : PyVal
  activity_level : PyVal
deriving DecidableEq, Repr

/-- Source: the feature-assembly part of the try block of
`predict_diet_plan` (backend/main.py lines 333-383): frequency coercion,
activity-level inference, gender resolution, the combined presence check
of the three diet encoders, categorical transforms, and the
diet_model_input_data dict. -/
def mkDietInput (encs : List (String × Option LabelEncoder))
    (pcf ep rui : List (String × PyVal)) : Except Exc DietModelInput :=
  match pyInt (getDefault ep "frequency_per_week" (.int 0)) with
  | .error e => .error e
  | .ok freq_for_activity =>
    match getKey ep "intensity_level" with
    | .error e => .error e
    | .ok intensityV =>
      match asStr intensityV with
      | .error e => .error e
      | .ok intensity =>
        let activity_level := infer_activity_level freq_for_activity intensity
        match getKey rui "gender" with
        | .error e => .error e
        | .ok genderV =>
          match asStr genderV with
          | .error e => .error e
          | .ok genderS =>
            let diet_gender_raw := pyLower genderS
            match resolveDietGender encs diet_gender_raw pcf with
            | .error e => .error e
            | .ok diet_encoded_gender =>
              match encs.lookup "exercise_type" with
              | some (some etEnc) =>
                match encs.lookup "intensity_level" with
                | some (some ilEnc) =>
                  match encs.lookup "activity_level" with
                  | some (some alEnc) =>
                    (match getKey ep "exercise_type" with
                     | .error e => .error e
                     | .ok etV =>
                       match asStr etV with
                       | .error e => .error e
                       | .ok etS =>
                         match transform etEnc etS with
                         | .error e => .error e
                         | .ok encoded_exercise_type =>
                           match transform ilEnc intensity with
                           | .error e => .error e
                           | .ok encoded_intensity_level =>
                             match transform alEnc activity_level with
                             | .error e => .error e
                             | .ok encoded_activity_level =>
                               match getKey pcf "age" with
                               | .error e => .error e
                               | .ok ageV =>
                                 match getKey pcf "height" with
                                 | .error e => .error e
                                 | .ok heightV =>
                                   match getKey pcf "weight" with
                                   | .error e => .error e
                                   | .ok weightV =>
                                     match getKey pcf "bmi" with
                                     | .error e => .error e
                                     | .ok bmiV =>
                                       match getKey pcf "calories_intake" with
                                       | .error e => .error e
                                       | .ok calV =>
                                         .ok ⟨ageV, diet_encoded_gender, heightV,
                                              weightV, bmiV, calV,
                                              .int encoded_exercise_type,
                                              .int encoded_intensity_level,
                                              .int freq_for_activity,
                                              .int encoded_activity_level⟩)
                  | _ => .error (.http 500 .dietEncodersMissing)
                | _ => .error (.http 500 .dietEncodersMissing)
              | _ => .error (.http 500 .dietEncodersMissing)

/-- Source: the full try block of `predict_diet_plan` (backend/main.py
lines 332-391): feature assembly, the diet regressor call, and rounding of
its four outputs into the diet_predictions dict. -/
def dietTryBlock (reg : DietModelInput → Except Exc (ℚ × ℚ × ℚ × ℚ))
    (encs : List (String × Option LabelEncoder))
    (pcf ep rui : List (String × PyVal)) : Except Exc (List (String × PyVal)) :=
  match mkDietInput encs pcf ep rui with
  | .error e => .error e
  | .ok inp =>
    match reg inp with
    | .error e => .error e
    | .ok y_diet_pred =>
      .ok [("recommended_calories", .rat (pyRound2 y_diet_pred.1)),
           ("protein_grams_per_day", .rat (pyRound2 y_diet_pred.2.1)),
           ("carbs_grams_per_day", .rat (pyRound2 y_diet_pred.2.2.1)),
           ("fats_grams_per_day", .rat (pyRound2 y_diet_pred.2.2.2))]

/-- Process-wide diet-model globals loaded at startup. -/
structure DietConfig where
  diet_regressor : Option (DietModelInput → Except Exc (ℚ × ℚ × ℚ × ℚ))
  diet_label_encoders : Option (List (String × Option LabelEncoder))

/-- Python truthiness of `all([diet_regressor, diet_label_encoders])`
(an empty encoders dict is falsy). -/
def dietCfgLoaded (c : DietConfig) : Bool :=
  c.diet_regressor.isSome &&
    (match c.diet_label_encoders with
     | some l => !l.isEmpty
     | Option.none => false)

/-- Model of `db.predictions.update_one(filter, set-document)` as issued
by predict_diet (backend/main.py lines 404-410): the first matching record
gets its diet_predictions and last_updated fields set; no upsert. -/
def updateDietFirst : List StoredRecord → String → List (String × PyVal) → Nat →
    List StoredRecord
  | [], _, _, _ => []
  | x :: xs, sid, dp, now =>
    if x.session_id == sid then
      { x with diet_predictions := dp, last_updated := some now } :: xs
    else x :: updateDietFirst xs sid dp now

/-- Response body of POST /predict_diet. -/
structure DietResponse where
  session_id : String
  diet_plan : List (String × PyVal)
  message : String
deriving DecidableEq, Repr

/-- Source: `predict_diet_plan` (backend/main.py lines 309-422). The
except handler (lines 392-398) re-reads the same globals as the entry
guard: it stores the error payload only when the diet model or its
encoders are unloaded, and otherwise re-raises an HTTP 500 wrapping the
caught exception (which may itself be the HTTP 400 raised for an unknown
diet gender, or the HTTP 500 for missing diet encoders). The MongoDB
update is modelled as always succeeding, as in `predict_exercise_plan`. -/
def predict_diet_plan (cfg : DietConfig) (store : List StoredRecord)
    (sid : String) (now : Nat) :
    Except Exc (List StoredRecord × DietResponse) :=
  if !dietCfgLoaded cfg then .error (.http 500 .modelsNotLoadedDiet)
  else
    match findOne store sid with
    | Option.none => .error (.http 404 (.noExercisePredictions sid))
    | some recd =>
      let processed_core_features := recd.processed_features
      let exercise_predictions := recd.exercise_predictions
      let raw_user_input := recd.raw_user_input
      if processed_core_features.isEmpty || exercise_predictions.isEmpty then
        .error (.http 500 .incompleteData)
      else
        match cfg.diet_regressor, cfg.diet_label_encoders with
        | some reg, some encs =>
          (match dietTryBlock reg encs processed_core_features exercise_predictions raw_user_input with
           | .ok diet_predictions =>
             .ok (updateDietFirst store sid diet_predictions now,
                  ⟨sid, diet_predictions, "Diet plan generated successfully!"⟩)
           | .error e =>
             if !dietCfgLoaded cfg then
               let diet_predictions : List (String × PyVal) :=
                 [("error", .str "Diet model not fully loaded or available.")]
               .ok (updateDietFirst store sid diet_predictions now,
                    ⟨sid, diet_predictions, "Diet plan generated successfully!"⟩)
             else .error (.http 500 (.dietInternalError e)))
        | _, _ => .error (.http 500 .modelsNotLoadedDiet)

/-- Optional personal details accepted by POST /generate_report. -/
structure UserPersonalDetails where
  first_name : Option String
  last_name : Option String
  email : Option String
  phone : Option String
deriving DecidableEq, Repr

/-- Request body of POST /generate_report. -/
structure ReportRequest where
  session_id : String
  user_details : Option UserPersonalDetails
deriving DecidableEq, Repr

/-- A flowable of the rendered PDF. Styling (colors, grids, fonts) is
presentation and not modelled; the style-name argument of a paragraph
records which sample style the source passes. -/
inductive ReportElement where
  | para (style : String) (text : String)
  | table (rows : List (List String))
  | spacer
deriving DecidableEq, Repr

/-- Python truthiness of an optional string field. -/
def truthyOS : Option String → Bool
  | some s => !s.isEmpty
  | Option.none => false

/-- Model of the row-label munging `key.replace(chr(95), chr(32)).title()`
with the trailing colon appended by the report renderer. -/
def rowKey (k : String) : String :=
  pyTitle (pyReplaceUS k) ++ ":"

/-- Source: the user-details rows of `generate_report` (backend/main.py
lines 446-449). -/
def userDetailRows (d : UserPersonalDetails) : List (List String) :=
  (if truthyOS d.first_name then [["First Name:", d.first_name.getD ""]] else []) ++
  (if truthyOS d.last_name then [["Last Name:", d.last_name.getD ""]] else []) ++
  (if truthyOS d.email then [["Email:", d.email.getD ""]] else []) ++
  (if truthyOS d.phone then [["Phone:", d.phone.getD ""]] else [])

/-- Source: the user-details section of `generate_report` (backend/main.py
lines 443-461). -/
def userDetailsSection : Option UserPersonalDetails → List ReportElement
  | Option.none => []
  | some d =>
    if truthyOS d.first_name || truthyOS d.last_name || truthyOS d.email || truthyOS d.phone then
      [.para ("h2") ("User Details:")] ++
        (let rows := userDetailRows d
         if rows.isEmpty then [] else [.table rows, .spacer])
    else []

/-- Source: the filtered raw-input rows of `generate_report`
(backend/main.py lines 469-471). -/
def submittedRows (rui : List (String × PyVal)) : List (List String) :=
  rui.filterMap (fun kv =>
    if kv.2 ≠ PyVal.none ∧ kv.2 ≠ PyVal.str "" ∧
        kv.1 ∉ (["medical_conditions", "dietary_restrictions", "food_preferences"] : List String)
    then some [rowKey kv.1, pyStr kv.2] else Option.none)

/-- Source: one of the three conditional legacy rows of `generate_report`
(backend/main.py lines 474-479), gated on Python truthiness of
`raw_user_input_stored.get(key)`. -/
def optionalRow (rui : List (String × PyVal)) (k : String) (label : String) :
    List (List String) :=
  if truthyPV (getDefault rui k PyVal.none) then
    [[label, pyStr (getDefault rui k PyVal.none)]]
  else []

/-- Source: the submitted-data section of `generate_report`
(backend/main.py lines 463-488): heading, filtered rows plus legacy rows,
table only when nonempty. -/
def submittedSection (rui : List (String × PyVal)) : List ReportElement :=
  [.para ("h2") ("Submitted Data:")] ++
    (let rows := submittedRows rui ++
       optionalRow rui "medical_conditions" "Medical Conditions:" ++
       optionalRow rui "dietary_restrictions" "Dietary Restrictions:" ++
       optionalRow rui "food_preferences" "Food Preferences:"
     if rows.isEmpty then [] else [.table rows, .spacer])

/-- Source: the exercise-plan section of `generate_report`
(backend/main.py lines 490-501). -/
def exerciseSection (ep : List (String × PyVal)) : List ReportElement :=
  [.para ("h2") ("Exercise Plan:")] ++
    (let rows := ep.map (fun kv => [rowKey kv.1, pyStr kv.2])
     if rows.isEmpty then [] else [.table rows, .spacer])

/-- Source: the diet rows of `generate_report` (backend/main.py lines
507-510), skipping the "message" key. -/
def dietRows (dp : List (String × PyVal)) : List (List String) :=
  dp.filterMap (fun kv =>
    if kv.1 ≠ "message" then some [rowKey kv.1, pyStr kv.2] else Option.none)

/-- Source: the diet-plan section of `generate_report` (backend/main.py
lines 503-524): a diet table when a non-error diet prediction is stored,
an error paragraph when the stored prediction is an error payload, and the
"Not yet generated." paragraph otherwise. -/
def dietSection (dp : List (String × PyVal)) : List ReportElement :=
  if !dp.isEmpty && (dp.lookup "error").isNone then
    [.para ("h2") ("Diet Plan:")] ++
      (let rows := dietRows dp
       if rows.isEmpty then [] else [.table rows, .spacer])
  else if !dp.isEmpty && (dp.lookup "error").isSome then
    match dp.lookup "error" with
    | some v => [.para ("Normal") ("Diet Plan Error: " ++ pyStr v), .spacer]
    | Option.none => []
  else
    [.para ("Normal") ("Diet Plan: Not yet generated."), .spacer]

/-- The flowables of `generate_report` preceding the diet section
(backend/main.py lines 440-501). -/
def reportPrefix (req : ReportRequest) (recd : StoredRecord) : List ReportElement :=
  [.para ("h1") ("Fitness and Diet Plan Report"), .spacer] ++
    userDetailsSection req.user_details ++
    submittedSection recd.raw_user_input ++
    exerciseSection recd.exercise_predictions

/-- Source: `generate_report` (backend/main.py lines 425-532), modelled up
to PDF rendering: the result is the list of flowables handed to
`doc.build`. -/
def generate_report (store : List StoredRecord) (req : ReportRequest) :
    Except Exc (List ReportElement) :=
  match findOne store req.session_id with
  | Option.none => .error (.http 404 (.noPredictionsFound req.session_id))
  | some recd => .ok (reportPrefix req recd ++ dietSection recd.diet_predictions)

/-- Whether an Except result is a success. -/
def isOkE {α : Type} : Except Exc α → Bool
  | .ok _ => true
  | .error _ => false

/-- Collection component of a successful predict_exercise result. -/
def okStoreE (r : Except Exc (List StoredRecord × ExerciseResponse)) : List StoredRecord :=
  match r with
  | .ok p => p.1
  | .error _ => []

/-- Response component of a successful predict_exercise result. -/
def okRespE (r : Except Exc (List StoredRecord × ExerciseResponse)) : ExerciseResponse :=
  match r with
  | .ok p => p.2
  | .error _ => ⟨"", [], ""⟩

/-- Feature-row component of a successful preprocessing result. -/
def okRowP (r : Except Exc (ExerciseRow × List (String × PyVal))) : ExerciseRow :=
  match r with
  | .ok p => p.1
  | .error _ => ⟨0, 0, 0, 0, 0, 0⟩

/-- Processed-features component of a successful preprocessing result. -/
def okPcfP (r : Except Exc (ExerciseRow × List (String × PyVal))) : List (String × PyVal) :=
  match r with
  | .ok p => p.2
  | .error _ => []

/-- Value of a successful dict-producing step. -/
def okListE (r : Except Exc (List (String × PyVal))) : List (String × PyVal) :=
  match r with
  | .ok l => l
  | .error _ => []

/-- Collection component of a successful predict_diet result. -/
def okStoreD (r : Except Exc (List StoredRecord × DietResponse)) : List StoredRecord :=
  match r with
  | .ok p => p.1
  | .error _ => []

/-- Response component of a successful predict_diet result. -/
def okRespD (r : Except Exc (List StoredRecord × DietResponse)) : DietResponse :=
  match r with
  | .ok p => p.2
  | .error _ => ⟨"", [], ""⟩

/-- Concrete gender encoder used by the witness scenarios. -/
def encGender : LabelEncoder := ⟨["female", "male"]⟩

/-- Concrete exercise-side encoder table used by the witness scenarios. -/
def exEncs : List (String × Option LabelEncoder) :=
  [("gender", some encGender),
   ("exercise_type", some ⟨["cardio", "strength"]⟩),
   ("intensity_level", some ⟨["high", "low", "medium"]⟩)]

/-- Concrete classifier stub returning fixed encoded outputs. -/
def clfW : ExerciseRow → Except Exc (Int × Int) := fun _ => .ok (0, 2)

/-- Concrete regressor stub returning fixed numeric outputs. -/
def regW : ExerciseRow → Except Exc (ℚ × ℚ × ℚ) := fun _ => .ok (3, 30, 200)

/-- Concrete exercise configuration whose opaque models return fixed
predictions. -/
def exCfg : ExerciseConfig :=
  ⟨some clfW, some regW, some exEncs⟩

/-- Concrete request used by the witness scenarios. -/
def sampleInput : UserInput :=
  ⟨"s1", 25, "male", 100, "inches", 80, "kg", 2000⟩

/-- Second concrete request for the same session id. -/
def sampleInput2 : UserInput :=
  ⟨"s1", 26, "female", 60, "inches", 70, "kg", 1800⟩

/-- Feature row produced by preprocessing `sampleInput`. -/
def sampleRow : ExerciseRow :=
  ⟨25, 1, 100, 80, 200000 / 16129, 2000⟩

/-- Processed core features produced by preprocessing `sampleInput`. -/
def samplePcf : List (String × PyVal) :=
  [("age", .int 25), ("gender", .int 1), ("height", .rat 100),
   ("weight", .rat 80), ("bmi", .rat (200000 / 16129)), ("calories_intake", .int 2000)]

/-- Feature row produced by preprocessing `sampleInput2`. -/
def sampleRow2 : ExerciseRow :=
  ⟨26, 0, 60, 70, 4375000 / 145161, 1800⟩

/-- Processed core features produced by preprocessing `sampleInput2`. -/
def samplePcf2 : List (String × PyVal) :=
  [("age", .int 26), ("gender", .int 0), ("height", .rat 60),
   ("weight", .rat 70), ("bmi", .rat (4375000 / 145161)), ("calories_intake", .int 1800)]

/-- Exercise predictions produced by the stub models on any row. -/
def sampleEp : List (String × PyVal) :=
  [("exercise_type", .str "cardio"), ("intensity_level", .str "medium"),
   ("frequency_per_week", .int 3), ("duration_minutes", .rat 30),
   ("estimated_calorie_burn", .rat 200)]

/-- Concrete diet-side encoder table used by the witness scenarios. -/
def dietEncs : List (String × Option LabelEncoder) :=
  [("gender", some encGender),
   ("exercise_type", some ⟨["cardio", "strength"]⟩),
   ("intensity_level", some ⟨["high", "low", "medium"]⟩),
   ("activity_level", some ⟨["light", "moderate", "sedentary", "very active"]⟩)]

/-- Concrete diet regressor stub returning fixed outputs. -/
def dietRegW : DietModelInput → Except Exc (ℚ × ℚ × ℚ × ℚ) :=
  fun _ => .ok (2200, 120, 250, 70)

/-- Concrete diet regressor stub that raises at predict time. -/
def dietRegFailW : DietModelInput → Except Exc (ℚ × ℚ × ℚ × ℚ) :=
  fun _ => .error (.modelFailure "boom")

/-- Concrete diet configuration whose regressor returns fixed outputs. -/
def dietCfg0 : DietConfig :=
  ⟨some dietRegW, some dietEncs⟩

/-- Concrete diet configuration whose regressor raises at predict time. -/
def dietCfgFail : DietConfig :=
  ⟨some dietRegFailW, some dietEncs⟩

/-- A complete stored session record, as left by a successful exercise
prediction. -/
def rec0 : StoredRecord :=
  { session_id := "s1"
    timestamp := 1
    raw_user_input :=
      [("session_id", .str "s1"), ("age", .int 25), ("gender", .str "male"),
       ("height_value", .rat 180), ("height_unit", .str "cm"),
       ("weight_value", .rat 80), ("weight_unit", .str "kg"),
       ("calories_intake", .int 2000)]
    processed_features :=
      [("age", .int 25), ("gender", .int 1), ("height", .rat 70),
       ("weight", .rat 80), ("bmi", .rat 25), ("calories_intake", .int 2000)]
    exercise_predictions :=
      [("exercise_type", .str "cardio"), ("intensity_level", .str "high"),
       ("frequency_per_week", .int 3), ("duration_minutes", .rat 30),
       ("estimated_calorie_burn", .rat 200)]
    diet_predictions := []
    last_updated := Option.none }

/-- Like `rec0` but with a raw gender outside every encoder's classes. -/
def recBadGender : StoredRecord :=
  { rec0 with raw_user_input :=
      [("session_id", .str "s1"), ("age", .int 25), ("gender", .str "other"),
       ("height_value", .rat 180), ("height_unit", .str "cm"),
       ("weight_value", .rat 80), ("weight_unit", .str "kg"),
       ("calories_intake", .int 2000)] }

/-- Diet predictions produced by the stub diet regressor on any input. -/
def dietPlanW : List (String × PyVal) :=
  [("recommended_calories", .rat 2200), ("protein_grams_per_day", .rat 120),
   ("carbs_grams_per_day", .rat 250), ("fats_grams_per_day", .rat 70)]

/-- Agreement of the fields of a session record that predict_diet must not
touch (everything except diet_predictions and last_updated). -/
def frameAgrees (a b : StoredRecord) : Prop :=
  a.session_id = b.session_id ∧ a.timestamp = b.timestamp ∧
  a.raw_user_input = b.raw_user_input ∧ a.processed_features = b.processed_features ∧
  a.exercise_predictions = b.exercise_predictions

theorem idxOfAux_eq_none (v : String) (l : List String) (h : v ∉ l) :
    ∀ s, idxOfAux v l s = Option.none := by
  induction l with
  | nil => intro s; rfl
  | cons x xs ih =>
    intro s
    have hx : (x == v) = false :=
      beq_eq_false_iff_ne.mpr (fun hh => h (hh ▸ List.mem_cons_self x xs))
    have hxs := ih (fun hm => h (List.mem_cons_of_mem x hm))
    simp [idxOfAux, hx, hxs]

theorem transform_eq_error (e : LabelEncoder) (v : String) (h : v ∉ e.classes_) :
    transform e v = .error .valueError := by
  unfold transform
  rw [idxOfAux_eq_none v e.classes_ h 0]

/-- C1: for every integer frequency at least 0 and every intensity string,
`infer_activity_level` is a total function agreeing pointwise with the
4-branch priority table of the specification, and matches the four quoted
examples. -/
theorem C1_activity_level_table (f : Int) (i : String) (_hf : 0 ≤ f) :
    infer_activity_level f i = spec_activity_table f i ∧
    infer_activity_level 5 "high" = "very active" ∧
    infer_activity_level 3 "medium" = "moderate" ∧
    infer_activity_level 1 "low" = "light" ∧
    infer_activity_level 4 "low" = "sedentary" := by
  refine ⟨?_, by decide, by decide, by decide, by decide⟩
  simp only [infer_activity_level, spec_activity_table, List.mem_cons,
    List.mem_singleton, List.not_mem_nil, or_false]

theorem C1_activity_level_table_witness :
    infer_activity_level 5 "high" = spec_activity_table 5 "high" ∧
    infer_activity_level 5 "high" = "very active" ∧
    infer_activity_level 3 "medium" = "moderate" ∧
    infer_activity_level 1 "low" = "light" ∧
    infer_activity_level 4 "low" = "sedentary" :=
  C1_activity_level_table 5 "high" (by decide)

/-- C2: preprocessing converts height to inches (cm times 0.393701, feet
times 12, inches unchanged), weight to kilograms (lbs times 0.453592, kg
unchanged), computes BMI as weight over squared height-in-meters with a
zero-height guard, stores exactly these values in the processed features,
and satisfies the quoted numeric examples (180 cm maps to about 70.87
inches, 80 kg stays 80 kg, BMI of 70 kg at 1.80 m is about 21.6). -/
theorem C2_unit_normalizer :
    (∀ v : ℚ, heightToInches v "cm" = v * (393701 / 1000000 : ℚ)) ∧
    (∀ v : ℚ, heightToInches v "feet" = v * 12) ∧
    (∀ v : ℚ, heightToInches v "inches" = v) ∧
    (∀ v : ℚ, weightToKg v "lbs" = v * (453592 / 1000000 : ℚ)) ∧
    (∀ v : ℚ, weightToKg v "kg" = v) ∧
    (∀ w h : ℚ, 0 < h → bmiFromInches w h = w / (h * (254 / 10000 : ℚ)) ^ 2) ∧
    (∀ w : ℚ, bmiFromInches w 0 = 0) ∧
    (∀ data encoders row pcf,
       preprocess_user_data_for_exercise data encoders = .ok (row, pcf) →
       pcf.lookup "height" = some (.rat (heightToInches data.height_value data.height_unit)) ∧
       pcf.lookup "weight" = some (.rat (weightToKg data.weight_value data.weight_unit)) ∧
       pcf.lookup "bmi" = some (.rat (bmiFromInches
         (weightToKg data.weight_value data.weight_unit)
         (heightToInches data.height_value data.height_unit)))) ∧
    |heightToInches 180 "cm" - 7087 / 100| < 1 / 100 ∧
    weightToKg 80 "kg" = 80 ∧
    |bmiFromInches 70 (9000 / 127) - 216 / 10| < 1 / 100 := by
  refine ⟨?_, ?_, ?_, ?_, ?_, ?_, ?_, ?_, ?_, ?_, ?_⟩
  · intro v
    unfold heightToInches
    rw [if_pos (by decide : pyLower "cm" = "cm")]
  · intro v
    unfold heightToInches
    rw [if_neg (by decide : ¬ pyLower "feet" = "cm"),
        if_pos (by decide : pyLower "feet" = "feet")]
  · intro v
    unfold heightToInches
    rw [if_neg (by decide : ¬ pyLower "inches" = "cm"),
        if_neg (by decide : ¬ pyLower "inches" = "feet")]
  · intro v
    unfold weightToKg
    rw [if_pos (by decide : pyLower "lbs" = "lbs")]
  · intro v
    unfold weightToKg
    rw [if_neg (by decide : ¬ pyLower "kg" = "lbs")]
  · intro w h hpos
    unfold bmiFromInches
    have hm : (0 : ℚ) < h * (254 / 10000 : ℚ) := by positivity
    simp only [hm, if_pos]
  · intro w
    unfold bmiFromInches
    norm_num
  · intro data encoders row pcf h
    cases encoders with
    | none => simp [preprocess_user_data_for_exercise] at h
    | some encs =>
      cases hg : encs.lookup "gender" with
      | none => simp [preprocess_user_data_for_exercise, hg] at h
      | some og =>
        cases og with
        | none => simp [preprocess_user_data_for_exercise, hg] at h
        | some le =>
          cases ht : transform le (pyLower data.gender) with
          | error e => simp [preprocess_user_data_for_exercise, hg, ht] at h
          | ok eg =>
            simp only [preprocess_user_data_for_exercise, hg, ht] at h
            obtain ⟨-, hpcf⟩ := Prod.mk.injEq .. ▸ (Except.ok.injEq .. ▸ h)
            subst hpcf
            refine ⟨?_, ?_, ?_⟩ <;> simp [List.lookup]
  · have h1 : heightToInches 180 "cm" = 180 * (393701 / 1000000 : ℚ) := by
      unfold heightToInches
      rw [if_pos (by decide : pyLower "cm" = "cm")]
    rw [h1, abs_lt]
    constructor <;> norm_num
  · unfold weightToKg
    rw [if_neg (by decide : ¬ pyLower "kg" = "lbs")]
  · have h1 : bmiFromInches 70 (9000 / 127) =
        70 / ((9000 / 127 : ℚ) * (254 / 10000 : ℚ)) ^ 2 := by
      simp only [bmiFromInches]
      rw [if_pos (by norm_num : (0 : ℚ) < (9000 / 127 : ℚ) * (254 / 10000 : ℚ))]
    rw [h1, abs_lt]
    constructor <;> norm_num

theorem C2_unit_normalizer_witness :
    bmiFromInches 70 (9000 / 127) = 70 / ((9000 / 127 : ℚ) * (254 / 10000 : ℚ)) ^ 2 :=
  C2_unit_normalizer.2.2.2.2.2.1 70 (9000 / 127) (by norm_num)

theorem isEmpty_false_of_ne_nil {α : Type} {l : List α} (h : l ≠ []) :
    l.isEmpty = false := by
  cases l with
  | nil => exact absurd rfl h
  | cons a t => rfl

/-- C3: predict_diet fails with the 404 not-found error when no record is
stored for the session id, fails with the 500 incomplete-data error when a
record exists but its processed features or its exercise prediction are
empty, and produces a diet prediction only when a record with non-empty
processed features and a non-empty exercise prediction is stored. -/
theorem C3_diet_preconditions (cfg : DietConfig) (store : List StoredRecord)
    (sid : String) (now : Nat) (hload : dietCfgLoaded cfg = true) :
    (findOne store sid = Option.none →
       predict_diet_plan cfg store sid now =
         .error (.http 404 (.noExercisePredictions sid))) ∧
    (∀ recd, findOne store sid = some recd →
       (recd.processed_features = [] ∨ recd.exercise_predictions = []) →
       predict_diet_plan cfg store sid now = .error (.http 500 .incompleteData)) ∧
    (isOkE (predict_diet_plan cfg store sid now) = true →
       ∃ recd, findOne store sid = some recd ∧
         recd.processed_features ≠ [] ∧ recd.exercise_predictions ≠ []) := by
  refine ⟨?_, ?_, ?_⟩
  · intro hnone
    simp [predict_diet_plan, hload, hnone]
  · intro recd hfind hemp
    rcases hemp with h | h <;> simp [predict_diet_plan, hload, hfind, h]
  · intro hok
    cases hfind : findOne store sid with
    | none => simp [predict_diet_plan, hload, hfind, isOkE] at hok
    | some recd =>
      by_cases h1 : recd.processed_features = []
      · simp [predict_diet_plan, hload, hfind, h1, isOkE] at hok
      by_cases h2 : recd.exercise_predictions = []
      · simp [predict_diet_plan, hload, hfind, h2, isOkE] at hok
      exact ⟨recd, hfind ▸ rfl, h1, h2⟩

theorem C3_diet_preconditions_witness :
    predict_diet_plan dietCfg0 [] "nosuch" 0 =
      .error (.http 404 (.noExercisePredictions "nosuch")) :=
  (C3_diet_preconditions dietCfg0 [] "nosuch" 0 (by decide)).1 (by decide)

theorem C4_counterexample :
    predict_diet_plan dietCfgFail [rec0] "s1" 5 =
      .error (.http 500 (.dietInternalError (.modelFailure "boom"))) := rfl

theorem predict_diet_error_wraps (cfg : DietConfig) (store : List StoredRecord)
    (sid : String) (now : Nat) (reg : DietModelInput → Except Exc (ℚ × ℚ × ℚ × ℚ))
    (encs : List (String × Option LabelEncoder)) (recd : StoredRecord) (e : Exc)
    (h1 : cfg.diet_regressor = some reg)
    (h2 : cfg.diet_label_encoders = some encs)
    (h3 : encs ≠ [])
    (h4 : findOne store sid = some recd)
    (h5 : recd.processed_features ≠ [])
    (h6 : recd.exercise_predictions ≠ [])
    (h7 : dietTryBlock reg encs recd.processed_features recd.exercise_predictions
            recd.raw_user_input = .error e) :
    predict_diet_plan cfg store sid now = .error (.http 500 (.dietInternalError e)) := by
  have hload : dietCfgLoaded cfg = true := by
    simp [dietCfgLoaded, h1, h2, isEmpty_false_of_ne_nil h3]
  simp [predict_diet_plan, hload, h4, isEmpty_false_of_ne_nil h5,
    isEmpty_false_of_ne_nil h6, h1, h2, h7]

/-- C4 (amended): when the diet-prediction step raises an internal error
while the entry guard has already established that the diet model and
encoders are loaded, predict_diet fails the whole request with an HTTP 500
wrapping the underlying error and performs no store update; the
error-payload branch of the except handler re-reads the same globals the
guard checked and is therefore not taken. -/
theorem C4_diet_failure_raises (cfg : DietConfig) (store : List StoredRecord)
    (sid : String) (now : Nat) (reg : DietModelInput → Except Exc (ℚ × ℚ × ℚ × ℚ))
    (encs : List (String × Option LabelEncoder)) (recd : StoredRecord) (e : Exc)
    (h1 : cfg.diet_regressor = some reg)
    (h2 : cfg.diet_label_encoders = some encs)
    (h3 : encs ≠ [])
    (h4 : findOne store sid = some recd)
    (h5 : recd.processed_features ≠ [])
    (h6 : recd.exercise_predictions ≠ [])
    (h7 : dietTryBlock reg encs recd.processed_features recd.exercise_predictions
            recd.raw_user_input = .error e) :
    predict_diet_plan cfg store sid now = .error (.http 500 (.dietInternalError e)) :=
  predict_diet_error_wraps cfg store sid now reg encs recd e h1 h2 h3 h4 h5 h6 h7

theorem upsert_of_no_match (store : List StoredRecord) (sid : String) (r : StoredRecord)
    (h : ∀ x ∈ store, (x.session_id == sid) = false) :
    upsertRecord store sid r = store ++ [r] := by
  unfold upsertRecord
  have hany : store.any (fun x => x.session_id == sid) = false := by
    rw [List.any_eq_false]
    intro x hx
    simp [h x hx]
  simp [hany]

theorem updateFirstSet_append (store : List StoredRecord) (sid : String)
    (r1 r2 : StoredRecord)
    (hall : ∀ x ∈ store, (x.session_id == sid) = false)
    (h1 : (r1.session_id == sid) = true) :
    updateFirstSet (store ++ [r1]) sid r2 =
      store ++ [{ r2 with last_updated := r1.last_updated }] := by
  induction store with
  | nil => simp [updateFirstSet, h1]
  | cons x xs ih =>
    have hx := hall x (List.mem_cons_self x xs)
    have ih2 := ih (fun y hy => hall y (List.mem_cons_of_mem x hy))
    simp only [List.cons_append, updateFirstSet, hx, Bool.false_eq_true, if_false,
      List.append_eq]
    rw [ih2]

theorem filter_append_of_no_match (store : List StoredRecord) (sid : String)
    (r : StoredRecord)
    (hall : ∀ x ∈ store, (x.session_id == sid) = false)
    (hr : (r.session_id == sid) = true) :
    (store ++ [r]).filter (fun x => x.session_id == sid) = [r] := by
  rw [List.filter_append]
  have h1 : store.filter (fun x => x.session_id == sid) = [] := by
    rw [List.filter_eq_nil_iff]
    intro a ha
    simp [hall a ha]
  rw [h1]
  simp [List.filter, hr]

theorem countP_zero_all_false (store : List StoredRecord) (sid : String)
    (h : store.countP (fun x => x.session_id == sid) = 0) :
    ∀ x ∈ store, (x.session_id == sid) = false := by
  intro x hx
  have := List.countP_eq_zero.mp h x hx
  simpa using this

theorem pyRound_intCast (n : ℤ) : pyRound ((n : ℚ)) = n := by
  unfold pyRound
  simp only [Int.floor_intCast, sub_self]
  norm_num

theorem pyRound_eval (q : ℚ) (n : ℤ) (h : q = (n : ℚ)) : pyRound q = n :=
  h ▸ pyRound_intCast n

theorem pyRound2_eval (q : ℚ) (n : ℤ) (h : q * 100 = (n : ℚ)) :
    pyRound2 q = (n : ℚ) / 100 := by
  unfold pyRound2
  rw [h, pyRound_intCast]

theorem eval_pre1 :
    preprocess_user_data_for_exercise sampleInput (some exEncs) =
      .ok (sampleRow, samplePcf) := by
  have hh : heightToInches 100 "inches" = 100 := by
    unfold heightToInches
    rw [if_neg (by decide : ¬ pyLower "inches" = "cm"),
        if_neg (by decide : ¬ pyLower "inches" = "feet")]
  have hw : weightToKg 80 "kg" = 80 := by
    unfold weightToKg
    rw [if_neg (by decide : ¬ pyLower "kg" = "lbs")]
  have hbmi : bmiFromInches 80 100 = 200000 / 16129 := by
    simp only [bmiFromInches]
    rw [if_pos (by norm_num : (0 : ℚ) < 100 * (254 / 10000 : ℚ))]
    norm_num
  simp only [preprocess_user_data_for_exercise, sampleInput]
  rw [hh, hw, hbmi]
  rfl

theorem eval_pre2 :
    preprocess_user_data_for_exercise sampleInput2 (some exEncs) =
      .ok (sampleRow2, samplePcf2) := by
  have hh : heightToInches 60 "inches" = 60 := by
    unfold heightToInches
    rw [if_neg (by decide : ¬ pyLower "inches" = "cm"),
        if_neg (by decide : ¬ pyLower "inches" = "feet")]
  have hw : weightToKg 70 "kg" = 70 := by
    unfold weightToKg
    rw [if_neg (by decide : ¬ pyLower "kg" = "lbs")]
  have hbmi : bmiFromInches 70 60 = 4375000 / 145161 := by
    simp only [bmiFromInches]
    rw [if_pos (by norm_num : (0 : ℚ) < 60 * (254 / 10000 : ℚ))]
    norm_num
  simp only [preprocess_user_data_for_exercise, sampleInput2]
  rw [hh, hw, hbmi]
  rfl

theorem eval_comp_any (row : ExerciseRow) :
    exerciseCompute clfW regW exEncs row = .ok sampleEp := by
  have hr1 : pyRound (3 : ℚ) = 3 := pyRound_eval 3 3 (by norm_num)
  have hr2 : pyRound2 (30 : ℚ) = 30 := by
    rw [pyRound2_eval 30 3000 (by norm_num)]
    norm_num
  have hr3 : pyRound2 (200 : ℚ) = 200 := by
    rw [pyRound2_eval 200 20000 (by norm_num)]
    norm_num
  show Except.ok [("exercise_type", PyVal.str "cardio"),
      ("intensity_level", PyVal.str "medium"),
      ("frequency_per_week", PyVal.int (pyRound 3)),
      ("duration_minutes", PyVal.rat (pyRound2 30)),
      ("estimated_calorie_burn", PyVal.rat (pyRound2 200))] = Except.ok sampleEp
  rw [hr1, hr2, hr3]
  rfl

theorem eval_pe1 :
    predict_exercise_plan exCfg [] sampleInput 0 =
      .ok ([⟨"s1", 0, userDict sampleInput, samplePcf, sampleEp, [], Option.none⟩],
           ⟨"s1", sampleEp,
            "Exercise plan generated. You can now generate a diet plan with more details if desired."⟩) := by
  simp only [predict_exercise_plan, exCfg]
  simp only [eval_pre1, eval_comp_any]
  rfl

theorem eval_pe2 :
    predict_exercise_plan exCfg
        [⟨"s1", 0, userDict sampleInput, samplePcf, sampleEp, [], Option.none⟩]
        sampleInput2 1 =
      .ok ([⟨"s1", 1, userDict sampleInput2, samplePcf2, sampleEp, [], Option.none⟩],
           ⟨"s1", sampleEp,
            "Exercise plan generated. You can now generate a diet plan with more details if desired."⟩) := by
  simp only [predict_exercise_plan, exCfg]
  simp only [eval_pre2, eval_comp_any]
  rfl

/-- C5: calling predict_exercise twice with the same session id on a
collection with no record for that id leaves exactly one stored record for
the id, and that record is the document built from the second call's raw
input, processed features and exercise predictions (with an empty diet
prediction and no last_updated). -/
theorem C5_second_call_supersedes (cfg : ExerciseConfig) (store : List StoredRecord)
    (in1 in2 : UserInput) (t1 t2 : Nat)
    (store1 store2 : List StoredRecord) (resp1 resp2 : ExerciseResponse)
    (clf : ExerciseRow → Except Exc (Int × Int))
    (reg : ExerciseRow → Except Exc (ℚ × ℚ × ℚ))
    (encs : List (String × Option LabelEncoder))
    (row2 : ExerciseRow) (pcf2 ep2 : List (String × PyVal))
    (hsid : in1.session_id = in2.session_id)
    (hcount : store.countP (fun x => x.session_id == in2.session_id) = 0)
    (hclf : cfg.multi_clf = some clf)
    (hreg : cfg.multi_reg = some reg)
    (hencs : cfg.label_encoders = some encs)
    (hpre : preprocess_user_data_for_exercise in2 (some encs) = .ok (row2, pcf2))
    (hcomp : exerciseCompute clf reg encs row2 = .ok ep2)
    (h1 : predict_exercise_plan cfg store in1 t1 = .ok (store1, resp1))
    (h2 : predict_exercise_plan cfg store1 in2 t2 = .ok (store2, resp2)) :
    store2.filter (fun x => x.session_id == in2.session_id) =
      [buildPredictionRecord in2 t2 pcf2 ep2] := by
  have hall := countP_zero_all_false store in2.session_id hcount
  simp only [predict_exercise_plan, hclf, hreg, hencs] at h1 h2
  cases hemp : encs.isEmpty with
  | true => simp [hemp] at h1
  | false =>
    simp only [hemp, Bool.false_eq_true, if_false] at h1 h2
    cases hp1 : preprocess_user_data_for_exercise in1 (some encs) with
    | error e => simp [hp1] at h1
    | ok pr1 =>
      obtain ⟨row1, pcf1⟩ := pr1
      cases hc1 : exerciseCompute clf reg encs row1 with
      | error e => simp [hp1, hc1] at h1
      | ok ep1 =>
        simp only [hp1, hc1, Except.ok.injEq, Prod.mk.injEq] at h1
        obtain ⟨hst1, -⟩ := h1
        simp only [hpre, hcomp, Except.ok.injEq, Prod.mk.injEq] at h2
        obtain ⟨hst2, -⟩ := h2
        have hs1eq : upsertRecord store in1.session_id
            (buildPredictionRecord in1 t1 pcf1 ep1) =
            store ++ [buildPredictionRecord in1 t1 pcf1 ep1] := by
          apply upsert_of_no_match
          intro x hx
          rw [hsid]
          exact hall x hx
        rw [← hst1, hs1eq] at hst2
        have hrec1sid :
            ((buildPredictionRecord in1 t1 pcf1 ep1).session_id == in2.session_id) = true := by
          simp [buildPredictionRecord, hsid]
        have hany : ((store ++ [buildPredictionRecord in1 t1 pcf1 ep1]).any
            (fun x => x.session_id == in2.session_id)) = true := by
          rw [List.any_eq_true]
          exact ⟨_, List.mem_append_right _ (List.mem_singleton_self _), hrec1sid⟩
        unfold upsertRecord at hst2
        rw [hany] at hst2
        simp only [if_true] at hst2
        rw [updateFirstSet_append store in2.session_id _ _ hall hrec1sid] at hst2
        have heta : ({ buildPredictionRecord in2 t2 pcf2 ep2 with
            last_updated := (buildPredictionRecord in1 t1 pcf1 ep1).last_updated } :
            StoredRecord) = buildPredictionRecord in2 t2 pcf2 ep2 := rfl
        rw [heta] at hst2
        rw [← hst2]
        exact filter_append_of_no_match store in2.session_id _ hall
          (by simp [buildPredictionRecord])

theorem C6_counterexample :
    predict_diet_plan dietCfg0 [recBadGender] "s1" 7 =
      .error (.http 500 (.dietInternalError (.http 400
        (.invalidGenderDiet "other" ["female", "male"])))) := rfl

/-- C6 (amended): an unknown gender value makes the exercise codec fail
with an HTTP 400 validation error carrying the encoder's allowed category
set; in predict_diet the analogous HTTP 400 validation error is raised
inside the try block, caught by the generic exception handler, and
surfaced as an HTTP 500 internal error that embeds the 400 error with the
allowed category set, rather than reaching the client as a 400. -/
theorem C6_gender_validation :
    (∀ (data : UserInput) (encs : List (String × Option LabelEncoder)) (enc : LabelEncoder),
       encs.lookup "gender" = some (some enc) →
       pyLower data.gender ∉ enc.classes_ →
       preprocess_user_data_for_exercise data (some encs) =
         .error (.http 400 (.invalidGenderExercise data.gender enc.classes_))) ∧
    (∀ (cfg : DietConfig) (store : List StoredRecord) (sid : String) (now : Nat)
       (reg : DietModelInput → Except Exc (ℚ × ℚ × ℚ × ℚ))
       (encs : List (String × Option LabelEncoder)) (enc : LabelEncoder)
       (recd : StoredRecord) (istr g : String) (f : Int),
       cfg.diet_regressor = some reg →
       cfg.diet_label_encoders = some encs →
       encs ≠ [] →
       findOne store sid = some recd →
       recd.processed_features ≠ [] →
       recd.exercise_predictions ≠ [] →
       pyInt (getDefault recd.exercise_predictions "frequency_per_week" (.int 0)) = .ok f →
       recd.exercise_predictions.lookup "intensity_level" = some (.str istr) →
       recd.raw_user_input.lookup "gender" = some (.str g) →
       encs.lookup "gender" = some (some enc) →
       pyLower g ∉ enc.classes_ →
       predict_diet_plan cfg store sid now =
         .error (.http 500 (.dietInternalError
           (.http 400 (.invalidGenderDiet (pyLower g) enc.classes_))))) := by
  constructor
  · intro data encs enc hlk hmem
    simp only [preprocess_user_data_for_exercise, hlk,
      transform_eq_error enc (pyLower data.gender) hmem]
  · intro cfg store sid now reg encs enc recd istr g f h1 h2 h3 h4 h5 h6 hfreq hil hg hlk hmem
    apply predict_diet_error_wraps cfg store sid now reg encs recd _ h1 h2 h3 h4 h5 h6
    have hmk : mkDietInput encs recd.processed_features recd.exercise_predictions
        recd.raw_user_input =
        .error (.http 400 (.invalidGenderDiet (pyLower g) enc.classes_)) := by
      simp only [mkDietInput, hfreq, getKey, hil, hg, asStr, resolveDietGender, hlk,
        transform_eq_error enc (pyLower g) hmem]
    simp only [dietTryBlock, hmk]

theorem C6_gender_validation_witness :
    predict_diet_plan dietCfg0 [recBadGender] "s1" 0 =
      .error (.http 500 (.dietInternalError (.http 400
        (.invalidGenderDiet (pyLower "other") encGender.classes_)))) :=
  C6_gender_validation.2 dietCfg0 [recBadGender] "s1" 0 dietRegW dietEncs encGender
    recBadGender "high" "other" 3 rfl rfl (by decide) rfl (by decide) (by decide)
    rfl rfl rfl rfl (by decide)

theorem C5_second_call_supersedes_witness :
    ([(⟨"s1", 1, userDict sampleInput2, samplePcf2, sampleEp, [], Option.none⟩ :
        StoredRecord)].filter (fun x => x.session_id == sampleInput2.session_id)) =
      [buildPredictionRecord sampleInput2 1 samplePcf2 sampleEp] :=
  C5_second_call_supersedes exCfg [] sampleInput sampleInput2 0 1
    [⟨"s1", 0, userDict sampleInput, samplePcf, sampleEp, [], Option.none⟩]
    [⟨"s1", 1, userDict sampleInput2, samplePcf2, sampleEp, [], Option.none⟩]
    ⟨"s1", sampleEp,
     "Exercise plan generated. You can now generate a diet plan with more details if desired."⟩
    ⟨"s1", sampleEp,
     "Exercise plan generated. You can now generate a diet plan with more details if desired."⟩
    clfW regW exEncs sampleRow2 samplePcf2 sampleEp
    rfl rfl rfl rfl rfl eval_pre2 (eval_comp_any sampleRow2) eval_pe1 eval_pe2

/-- C7: the gender fed to the diet model is obtained by re-encoding the
raw stored gender string with the diet-specific gender encoder whenever
that encoder is present — the resolution is then independent of the stored
exercise-encoded value — and only when the diet gender encoder is absent
(key missing or None) does it fall back to the gender entry of the stored
processed features; the diet-model input built by predict_diet carries
exactly that resolved value in its gender column. -/
theorem C7_raw_gender_reencoding (encs : List (String × Option LabelEncoder))
    (enc : LabelEncoder) (g : String) (pcf ep rui : List (String × PyVal)) :
    (encs.lookup "gender" = some (some enc) →
       (∀ pcfA pcfB, resolveDietGender encs g pcfA = resolveDietGender encs g pcfB) ∧
       (∀ code : Int, transform enc g = .ok code →
          resolveDietGender encs g pcf = .ok (.int code))) ∧
    (encs.lookup "gender" = Option.none →
       resolveDietGender encs g pcf = getKey pcf "gender") ∧
    (encs.lookup "gender" = some Option.none →
       resolveDietGender encs g pcf = getKey pcf "gender") ∧
    (∀ inp : DietModelInput, mkDietInput encs pcf ep rui = .ok inp →
       ∃ gs : String, rui.lookup "gender" = some (.str gs) ∧
         resolveDietGender encs (pyLower gs) pcf = .ok inp.gender) := by
  refine ⟨?_, ?_, ?_, ?_⟩
  · intro hlk
    constructor
    · intro pcfA pcfB
      cases ht : transform enc g <;> simp [resolveDietGender, hlk, ht]
    · intro code hcode
      simp [resolveDietGender, hlk, hcode]
  · intro hnone
    simp [resolveDietGender, hnone]
  · intro hsn
    simp [resolveDietGender, hsn]
  · intro inp h
    cases h1 : pyInt (getDefault ep "frequency_per_week" (.int 0)) with
    | error e => simp [mkDietInput, h1] at h
    | ok freq =>
    cases h2 : ep.lookup "intensity_level" with
    | none => simp [mkDietInput, getKey, h1, h2] at h
    | some iv =>
    cases h3 : asStr iv with
    | error e => simp [mkDietInput, getKey, h1, h2, h3] at h
    | ok istr =>
    cases h4 : rui.lookup "gender" with
    | none => simp [mkDietInput, getKey, h1, h2, h3, h4] at h
    | some gv =>
    cases h5 : asStr gv with
    | error e => simp [mkDietInput, getKey, h1, h2, h3, h4, h5] at h
    | ok gs =>
    have hgv : gv = .str gs := by
      cases gv <;> simp [asStr] at h5
      rw [h5]
    cases h6 : resolveDietGender encs (pyLower gs) pcf with
    | error e => simp [mkDietInput, getKey, h1, h2, h3, h4, h5, h6] at h
    | ok dg =>
    refine ⟨gs, by rw [hgv], ?_⟩
    rw [h6]
    cases h7 : encs.lookup "exercise_type" with
    | none => simp [mkDietInput, getKey, h1, h2, h3, h4, h5, h6, h7] at h
    | some o7 =>
    cases o7 with
    | none => simp [mkDietInput, getKey, h1, h2, h3, h4, h5, h6, h7] at h
    | some etEnc =>
    cases h8 : encs.lookup "intensity_level" with
    | none => simp [mkDietInput, getKey, h1, h2, h3, h4, h5, h6, h7, h8] at h
    | some o8 =>
    cases o8 with
    | none => simp [mkDietInput, getKey, h1, h2, h3, h4, h5, h6, h7, h8] at h
    | some ilEnc =>
    cases h9 : encs.lookup "activity_level" with
    | none => simp [mkDietInput, getKey, h1, h2, h3, h4, h5, h6, h7, h8, h9] at h
    | some o9 =>
    cases o9 with
    | none => simp [mkDietInput, getKey, h1, h2, h3, h4, h5, h6, h7, h8, h9] at h
    | some alEnc =>
    cases h10 : ep.lookup "exercise_type" with
    | none => simp [mkDietInput, getKey, h1, h2, h3, h4, h5, h6, h7, h8, h9, h10] at h
    | some etV =>
    cases h11 : asStr etV with
    | error e =>
      simp [mkDietInput, getKey, h1, h2, h3, h4, h5, h6, h7, h8, h9, h10, h11] at h
    | ok etS =>
    cases h12 : transform etEnc etS with
    | error e =>
      simp [mkDietInput, getKey, h1, h2, h3, h4, h5, h6, h7, h8, h9, h10, h11, h12] at h
    | ok ect =>
    cases h13 : transform ilEnc istr with
    | error e =>
      simp [mkDietInput, getKey, h1, h2, h3, h4, h5, h6, h7, h8, h9, h10, h11, h12,
        h13] at h
    | ok eci =>
    cases h14 : transform alEnc (infer_activity_level freq istr) with
    | error e =>
      simp [mkDietInput, getKey, h1, h2, h3, h4, h5, h6, h7, h8, h9, h10, h11, h12,
        h13, h14] at h
    | ok eca =>
    cases h15 : pcf.lookup "age" with
    | none =>
      simp [mkDietInput, getKey, h1, h2, h3, h4, h5, h6, h7, h8, h9, h10, h11, h12,
        h13, h14, h15] at h
    | some ageV =>
    cases h16 : pcf.lookup "height" with
    | none =>
      simp [mkDietInput, getKey, h1, h2, h3, h4, h5, h6, h7, h8, h9, h10, h11, h12,
        h13, h14, h15, h16] at h
    | some heightV =>
    cases h17 : pcf.lookup "weight" with
    | none =>
      simp [mkDietInput, getKey, h1, h2, h3, h4, h5, h6, h7, h8, h9, h10, h11, h12,
        h13, h14, h15, h16, h17] at h
    | some weightV =>
    cases h18 : pcf.lookup "bmi" with
    | none =>
      simp [mkDietInput, getKey, h1, h2, h3, h4, h5, h6, h7, h8, h9, h10, h11, h12,
        h13, h14, h15, h16, h17, h18] at h
    | some bmiV =>
    cases h19 : pcf.lookup "calories_intake" with
    | none =>
      simp [mkDietInput, getKey, h1, h2, h3, h4, h5, h6, h7, h8, h9, h10, h11, h12,
        h13, h14, h15, h16, h17, h18, h19] at h
    | some calV =>
    simp only [mkDietInput, getKey, h1, h2, h3, h4, h5, h6, h7, h8, h9, h10, h11, h12,
      h13, h14, h15, h16, h17, h18, h19, Except.ok.injEq] at h
    rw [← h]

theorem C7_raw_gender_reencoding_witness :
    resolveDietGender dietEncs "male" rec0.processed_features = .ok (.int 1) :=
  ((C7_raw_gender_reencoding dietEncs encGender "male" rec0.processed_features [] []).1
    rfl).2 1 rfl

theorem dietSection_nil :
    dietSection [] = [.para ("Normal") ("Diet Plan: Not yet generated."), .spacer] := rfl

theorem dietSection_error (dp : List (String × PyVal)) (v : PyVal)
    (h : dp.lookup "error" = some v) :
    dietSection dp = [.para ("Normal") ("Diet Plan Error: " ++ pyStr v), .spacer] := by
  have hne : dp.isEmpty = false := by
    cases dp with
    | nil => simp [List.lookup] at h
    | cons a t => rfl
  simp [dietSection, h, hne]

/-- C8: for a stored record with an exercise prediction and an empty diet
prediction, generate_report renders the diet section as the single
paragraph "Diet Plan: Not yet generated."; when the stored diet prediction
is an error payload, the diet section is a "Diet Plan Error:" paragraph
instead of a diet table. -/
theorem C8_report_diet_section (store : List StoredRecord) (req : ReportRequest)
    (recd : StoredRecord)
    (hfind : findOne store req.session_id = some recd)
    (_hex : recd.exercise_predictions ≠ []) :
    (recd.diet_predictions = [] →
       generate_report store req = .ok (reportPrefix req recd ++
         [.para ("Normal") ("Diet Plan: Not yet generated."), .spacer])) ∧
    (∀ v, recd.diet_predictions.lookup "error" = some v →
       generate_report store req = .ok (reportPrefix req recd ++
         [.para ("Normal") ("Diet Plan Error: " ++ pyStr v), .spacer])) := by
  constructor
  · intro hdp
    simp only [generate_report, hfind, hdp, dietSection_nil]
  · intro v hv
    simp only [generate_report, hfind, dietSection_error recd.diet_predictions v hv]

theorem C8_report_diet_section_witness :
    generate_report [rec0] ⟨"s1", Option.none⟩ =
      .ok (reportPrefix ⟨"s1", Option.none⟩ rec0 ++
        [.para ("Normal") ("Diet Plan: Not yet generated."), .spacer]) :=
  (C8_report_diet_section [rec0] ⟨"s1", Option.none⟩ rec0 rfl (by decide)).1 rfl

theorem find_append_singleton (store : List StoredRecord) (sid : String)
    (r : StoredRecord)
    (hall : ∀ x ∈ store, (x.session_id == sid) = false)
    (hr : (r.session_id == sid) = true) :
    findOne (store ++ [r]) sid = some r := by
  induction store with
  | nil =>
    unfold findOne
    simp [List.find?, hr]
  | cons x xs ih =>
    have hx := hall x (List.mem_cons_self x xs)
    have ih2 := ih (fun y hy => hall y (List.mem_cons_of_mem x hy))
    unfold findOne at ih2 ⊢
    simp only [List.cons_append, List.find?, hx]
    exact ih2

theorem findOne_updateFirstSet_diet (store : List StoredRecord) (sid : String)
    (r : StoredRecord)
    (hr : (r.session_id == sid) = true)
    (hany : store.any (fun x => x.session_id == sid) = true) :
    (findOne (updateFirstSet store sid r) sid).map (fun x => x.diet_predictions) =
      some r.diet_predictions := by
  induction store with
  | nil => simp at hany
  | cons x xs ih =>
    cases hx : (x.session_id == sid) with
    | true =>
      simp only [updateFirstSet, hx, if_true]
      unfold findOne
      simp only [List.find?, hr]
      rfl
    | false =>
      simp only [updateFirstSet, hx, Bool.false_eq_true, if_false]
      have hxs : xs.any (fun x => x.session_id == sid) = true := by
        simp only [List.any_cons, hx, Bool.false_or] at hany
        exact hany
      unfold findOne
      simp only [List.find?, hx]
      exact ih hxs

theorem findOne_upsert_diet (store : List StoredRecord) (sid : String)
    (r : StoredRecord) (hr : (r.session_id == sid) = true) :
    (findOne (upsertRecord store sid r) sid).map (fun x => x.diet_predictions) =
      some r.diet_predictions := by
  unfold upsertRecord
  cases hany : store.any (fun x => x.session_id == sid) with
  | true =>
    simp only [if_true]
    exact findOne_updateFirstSet_diet store sid r hr hany
  | false =>
    simp only [Bool.false_eq_true, if_false]
    have hall : ∀ x ∈ store, (x.session_id == sid) = false := by
      intro x hx
      exact Bool.eq_false_iff.mpr (List.any_eq_false.mp hany x hx)
    rw [find_append_singleton store sid r hall hr]
    rfl

/-- C9: every successful predict_exercise call stores a record whose
diet_predictions field is the empty mapping, so re-running phase 1 erases
any previously stored diet prediction for the session. -/
theorem C9_diet_predictions_reset (cfg : ExerciseConfig) (store : List StoredRecord)
    (input : UserInput) (now : Nat)
    (hok : isOkE (predict_exercise_plan cfg store input now) = true) :
    (findOne (okStoreE (predict_exercise_plan cfg store input now)) input.session_id).map
      (fun r => r.diet_predictions) = some [] := by
  cases hclf : cfg.multi_clf with
  | none =>
    cases hreg : cfg.multi_reg <;> cases hencs : cfg.label_encoders <;>
      simp [predict_exercise_plan, hclf, hreg, hencs, isOkE] at hok
  | some clf =>
    cases hreg : cfg.multi_reg with
    | none =>
      cases hencs : cfg.label_encoders <;>
        simp [predict_exercise_plan, hclf, hreg, hencs, isOkE] at hok
    | some reg =>
      cases hencs : cfg.label_encoders with
      | none => simp [predict_exercise_plan, hclf, hreg, hencs, isOkE] at hok
      | some encs =>
        cases hemp : encs.isEmpty with
        | true => simp [predict_exercise_plan, hclf, hreg, hencs, hemp, isOkE] at hok
        | false =>
          cases hp : preprocess_user_data_for_exercise input (some encs) with
          | error e =>
            simp [predict_exercise_plan, hclf, hreg, hencs, hemp, hp, isOkE] at hok
          | ok pr =>
            obtain ⟨row, pcf⟩ := pr
            cases hc : exerciseCompute clf reg encs row with
            | error e =>
              simp [predict_exercise_plan, hclf, hreg, hencs, hemp, hp, hc, isOkE] at hok
            | ok ep =>
              have hres : okStoreE (predict_exercise_plan cfg store input now) =
                  upsertRecord store input.session_id
                    (buildPredictionRecord input now pcf ep) := by
                simp [predict_exercise_plan, hclf, hreg, hencs, hemp, hp, hc, okStoreE]
              rw [hres]
              rw [findOne_upsert_diet store input.session_id
                (buildPredictionRecord input now pcf ep) (by simp [buildPredictionRecord])]
              rfl

theorem C9_diet_predictions_reset_witness :
    (findOne (okStoreE (predict_exercise_plan exCfg [] sampleInput 0))
        sampleInput.session_id).map (fun r => r.diet_predictions) = some [] :=
  C9_diet_predictions_reset exCfg [] sampleInput 0 (by rw [eval_pe1]; rfl)

theorem eval_dtb0 :
    dietTryBlock dietRegW dietEncs rec0.processed_features rec0.exercise_predictions
      rec0.raw_user_input = .ok dietPlanW := by
  have h1 : pyRound2 (2200 : ℚ) = 2200 := by
    rw [pyRound2_eval 2200 220000 (by norm_num)]
    norm_num
  have h2 : pyRound2 (120 : ℚ) = 120 := by
    rw [pyRound2_eval 120 12000 (by norm_num)]
    norm_num
  have h3 : pyRound2 (250 : ℚ) = 250 := by
    rw [pyRound2_eval 250 25000 (by norm_num)]
    norm_num
  have h4 : pyRound2 (70 : ℚ) = 70 := by
    rw [pyRound2_eval 70 7000 (by norm_num)]
    norm_num
  show Except.ok [("recommended_calories", PyVal.rat (pyRound2 2200)),
      ("protein_grams_per_day", PyVal.rat (pyRound2 120)),
      ("carbs_grams_per_day", PyVal.rat (pyRound2 250)),
      ("fats_grams_per_day", PyVal.rat (pyRound2 70))] = Except.ok dietPlanW
  rw [h1, h2, h3, h4]
  rfl

theorem eval_pd0 :
    predict_diet_plan dietCfg0 [rec0] "s1" 9 =
      .ok ([{ rec0 with diet_predictions := dietPlanW, last_updated := some 9 }],
           ⟨"s1", dietPlanW, "Diet plan generated successfully!"⟩) := by
  simp only [predict_diet_plan, dietCfg0]
  simp only [show findOne [rec0] ("s1") = some rec0 from rfl, eval_dtb0]
  rfl

theorem forall2_frame_refl (l : List StoredRecord) : List.Forall₂ frameAgrees l l := by
  induction l with
  | nil => exact List.Forall₂.nil
  | cons x xs ih => exact List.Forall₂.cons ⟨rfl, rfl, rfl, rfl, rfl⟩ ih

theorem updateDietFirst_frames (store : List StoredRecord) (sid : String)
    (dp : List (String × PyVal)) (now : Nat) :
    List.Forall₂ frameAgrees (updateDietFirst store sid dp now) store := by
  induction store with
  | nil => exact List.Forall₂.nil
  | cons x xs ih =>
    unfold updateDietFirst
    by_cases hx : (x.session_id == sid) = true
    · rw [if_pos hx]
      exact List.Forall₂.cons ⟨rfl, rfl, rfl, rfl, rfl⟩ (forall2_frame_refl xs)
    · rw [if_neg hx]
      exact List.Forall₂.cons ⟨rfl, rfl, rfl, rfl, rfl⟩ ih

/-- C10: the store update performed by a successful predict_diet leaves
every record's session_id, timestamp, raw_user_input, processed_features
and exercise_predictions unchanged (it only rewrites diet_predictions and
last_updated of the matched record, and the collection keeps its shape). -/
theorem C10_frame_effect (cfg : DietConfig) (store : List StoredRecord)
    (sid : String) (now : Nat)
    (hok : isOkE (predict_diet_plan cfg store sid now) = true) :
    List.Forall₂ frameAgrees (okStoreD (predict_diet_plan cfg store sid now)) store := by
  cases hload : dietCfgLoaded cfg with
  | false => simp [predict_diet_plan, hload, isOkE] at hok
  | true =>
    cases hfind : findOne store sid with
    | none => simp [predict_diet_plan, hload, hfind, isOkE] at hok
    | some recd =>
      cases hpe : (recd.processed_features.isEmpty || recd.exercise_predictions.isEmpty) with
      | true => simp [predict_diet_plan, hload, hfind, hpe, isOkE] at hok
      | false =>
        cases hreg : cfg.diet_regressor with
        | none =>
          unfold dietCfgLoaded at hload
          rw [hreg] at hload
          simp at hload
        | some reg =>
          cases hencs : cfg.diet_label_encoders with
          | none =>
            unfold dietCfgLoaded at hload
            rw [hencs] at hload
            simp at hload
          | some encs =>
            cases hdtb : dietTryBlock reg encs recd.processed_features
                recd.exercise_predictions recd.raw_user_input with
            | ok dp =>
              have hres : okStoreD (predict_diet_plan cfg store sid now) =
                  updateDietFirst store sid dp now := by
                simp [predict_diet_plan, hload, hfind, hpe, hreg, hencs, hdtb, okStoreD]
              rw [hres]
              exact updateDietFirst_frames store sid dp now
            | error e =>
              simp [predict_diet_plan, hload, hfind, hpe, hreg, hencs, hdtb, isOkE] at hok

theorem C10_frame_effect_witness :
    List.Forall₂ frameAgrees (okStoreD (predict_diet_plan dietCfg0 [rec0] "s1" 9)) [rec0] :=
  C10_frame_effect dietCfg0 [rec0] "s1" 9 (by rw [eval_pd0]; rfl)

theorem C4_diet_failure_raises_witness :
    predict_diet_plan dietCfgFail [rec0] "s1" 6 =
      .error (.http 500 (.dietInternalError (.modelFailure "boom"))) :=
  C4_diet_failure_raises dietCfgFail [rec0] "s1" 6 dietRegFailW dietEncs rec0
    (.modelFailure "boom") rfl rfl (by decide) rfl (by decide) (by decide) rfl

end VitaFit
